import Mathlib

/-!
# Verification of the WhatsApp ingestion & archival pipeline

A shallow embedding, in Lean 4, of the Go sources of the
`whatsapp-server-test` repository, together with theorems settling the
claims of its specification.

Modelling conventions:
* `[]byte` values are `List Nat` (one entry per byte); machine integers are
  `Nat` with explicit `% 2 ^ w` where overflow matters.
* Slicing `data[a:b]` is total (`drop`/`take`): an out-of-range read yields
  the bytes that are there.  (In Go such a read panics or reads spare
  capacity; no claim below depends on that corner.)
* External collaborators (the SQL driver, the S3 service, the whatsmeow
  client) are modelled by explicit state (association lists) and by oracle
  parameters for their fallible results.
* `float64` arithmetic in the Ogg analyzer and the waveform synthesizer is
  modelled over `ℚ`, with `math.Sin` an abstract function parameter; the
  float constant `math.Pi` is kept as an explicit rational.
-/

namespace WhatsApp

/-- A byte sequence: one `Nat` per byte. -/
abbrev Bytes := List Nat

/-- Go slicing `data[a:b]`, totalised: out-of-range reads yield what is there. -/
def slice (data : Bytes) (a b : Nat) : Bytes := (data.drop a).take (b - a)

/-- `binary.LittleEndian.UintNN`: combine bytes, least significant first. -/
def leUint (bs : Bytes) : Nat := bs.foldr (fun b acc => b + 256 * acc) 0

/-- The Ogg capture pattern `"OggS"` (bytes 79 103 103 83). -/
def oggSig : Bytes := [79, 103, 103, 83]

/-- The `"OpusHead"` marker bytes. -/
def opusHeadSig : Bytes := [79, 112, 117, 115, 72, 101, 97, 100]

/-- `bytes.Index`: the first index at which `pat` occurs contiguously, else `none`. -/
def indexOfSub (pat : Bytes) : Bytes → Option Nat
  | [] => if pat = [] then some 0 else none
  | b :: rest =>
    if pat.isPrefixOf (b :: rest) then some 0
    else (indexOfSub pat rest).map (· + 1)

/-- The mutable locals of `AnalyzeOggOpus`'s page scan (src/unnamed/part_004,
lines 69-72): last granule seen, sample rate, pre-skip, OpusHead flag. -/
structure OggState where
  lastGranule : Nat
  sampleRate : Nat
  preSkip : Nat
  foundOpusHead : Bool
  deriving DecidableEq

/-- Lines 106-122 of `AnalyzeOggOpus`: probe one page's bytes for the
`"OpusHead"` marker; on a hit read pre-skip (2 bytes LE at marker offset +10)
and sample rate (4 bytes LE at marker offset +12).  Two Go slice operations
here are NOT bounds-checked by the source and panic (a runtime abort,
modelled as `none`) when they overrun the input, taking `cap(data) =
data.length` (the ordinary case — spare capacity would instead read stale
bytes):
* `pageData := data[i : i+pageSize]` (line 108) panics when `i + pageSize`
  exceeds the input length — `pageSize` includes the summed claimed segment
  lengths, which lines 94-96 never check against the input;
* `pageData[headPos+12 : headPos+16]` (the sample-rate read, line 117) is
  guarded only up to `headPos+12`, so it may run past the page: within the
  input it reads the adjacent bytes (modelled by an absolute read from
  `data`), past the input it panics. -/
def probeOpusHead (data : Bytes) (i pageSize : Nat) (st : OggState) : Option OggState :=
  if data.length < i + pageSize then none
  else
    let pageData := slice data i (i + pageSize)
    match indexOfSub opusHeadSig pageData with
    | none => some st
    | some headPos =>
      if headPos + 12 < pageData.length then
        let hp := headPos + 8
        if hp + 12 ≤ pageData.length then
          if data.length < i + hp + 16 then none
          else
            some { st with
              preSkip := leUint (slice pageData (hp + 10) (hp + 12))
              sampleRate := leUint (slice data (i + hp + 12) (i + hp + 16))
              foundOpusHead := true }
        else some st
      else some st

/-- The page-scan loop of `AnalyzeOggOpus` (src/unnamed/part_004, lines 75-131),
structural on a fuel argument; `fuel ≥ data.length + 1 - i` is enough fuel,
since every step advances `i` by at least one.  `none` is a runtime panic
inside the OpusHead probe, which aborts the whole analysis. -/
def oggLoop (data : Bytes) : Nat → Nat → OggState → Option OggState
  | 0, _, st => some st
  | fuel + 1, i, st =>
    if i < data.length then
      if data.length ≤ i + 27 then some st
      else if slice data i (i + 4) ≠ oggSig then oggLoop data fuel (i + 1) st
      else
        let granulePos := leUint (slice data (i + 6) (i + 14))
        let pageSeqNum := leUint (slice data (i + 18) (i + 22))
        let numSegments := data.getD (i + 26) 0
        if data.length ≤ i + 27 + numSegments then some st
        else
          let segmentTable := slice data (i + 27) (i + 27 + numSegments)
          let pageSize := 27 + numSegments + segmentTable.sum
          match (if ¬ st.foundOpusHead ∧ pageSeqNum ≤ 1 then
              probeOpusHead data i pageSize st
            else some st) with
          | none => none
          | some st1 =>
            let st2 :=
              if granulePos ≠ 0 then { st1 with lastGranule := granulePos } else st1
            oggLoop data fuel (i + pageSize) st2
    else some st

/-- The scan of the whole input, from `i = 0` with the defaults of lines 69-72
(48000 Hz, zero pre-skip); `none` is a runtime panic. -/
def analyzeScan (data : Bytes) : Option OggState :=
  oggLoop data (data.length + 1) 0 ⟨0, 48000, 0, false⟩

/-- `uint32(math.Ceil(float64 a / float64 b))` modelled exactly on naturals.
For `b = 0` Go divides to `+Inf`, whose `uint32` conversion yields 0 on the
reference platform; results ≥ 2^32 do not arise for genuine audio and the
conversion is modelled as exact. -/
def ceilDiv (a b : Nat) : Nat := if b = 0 then 0 else (a + b - 1) / b

/-- What one call of the analyzer can do: return the function's error, crash
with a runtime panic (a slice overrun in the OpusHead probe — no value is
returned at all), or return a duration. -/
inductive OggResult
  | panic
  | error (msg : String)
  | ok (duration : Nat)
  deriving DecidableEq

/-- `AnalyzeOggOpus` (src/unnamed/part_004, lines 61-165), returning the
computed duration.  The returned waveform is `placeholderWaveform duration`
and carries no further information about the input.  The only error RETURN of
the source is the missing-signature check of lines 64-66; a slice overrun
inside the OpusHead probe instead panics (`OggResult.panic`).  The uint64
subtraction `lastGranule - uint64(preSkip)` wraps and is modelled with an
explicit `% 2 ^ 64`. -/
def AnalyzeOggOpus (data : Bytes) : OggResult :=
  if data.length < 4 ∨ slice data 0 4 ≠ oggSig then
    .error "not a valid Ogg file (missing OggS signature)"
  else
    match analyzeScan data with
    | none => .panic
    | some st =>
      let duration :=
        if 0 < st.lastGranule then
          ceilDiv ((st.lastGranule + 2 ^ 64 - st.preSkip) % 2 ^ 64) st.sampleRate
        else data.length / 2000
      let duration := if duration < 1 then 1 else if duration > 300 then 300 else duration
      .ok duration

/-- The granule positions of the pages the scan walks, in scan order: the same
traversal skeleton, collecting instead of folding.  Page positions do not
depend on the scan state, so when the scan completes without a panic these
are exactly the granule positions it processed. -/
def pageGranules (data : Bytes) : Nat → Nat → List Nat
  | 0, _ => []
  | fuel + 1, i =>
    if i < data.length then
      if data.length ≤ i + 27 then []
      else if slice data i (i + 4) ≠ oggSig then pageGranules data fuel (i + 1)
      else
        let granulePos := leUint (slice data (i + 6) (i + 14))
        let numSegments := data.getD (i + 26) 0
        if data.length ≤ i + 27 + numSegments then []
        else
          let pageSize := 27 + numSegments + (slice data (i + 27) (i + 27 + numSegments)).sum
          granulePos :: pageGranules data fuel (i + pageSize)
    else []

/-- The last non-zero entry of a list, 0 when there is none: what lines
124-127 of the source track across pages. -/
def lastNonZero (l : List Nat) : Nat :=
  l.foldl (fun acc g => if g ≠ 0 then g else acc) 0

/-- The specification's words for step 4 of the analyzer: the highest granule
position seen across all pages (a monotonic high-water mark).  Stated here
only to be compared against what the code computes. -/
def specHighestGranule (l : List Nat) : Nat := l.foldl max 0

/-- The specification's duration formula (steps 5-6 of §4.2), written over `ℚ`
with genuine ceiling/floor, from the scan's outputs.  The `none` (panic) case
is unreachable whenever the analyzer actually returns a duration, which is
the hypothesis under which this formula is compared with the code. -/
def specOggDuration (data : Bytes) : Nat :=
  match analyzeScan data with
  | none => 0
  | some st =>
    if 0 < st.lastGranule then
      min 300 (max 1
        ⌈(((st.lastGranule + 2 ^ 64 - st.preSkip) % 2 ^ 64 : Nat) : ℚ) /
          (st.sampleRate : ℚ)⌉₊)
    else
      min 300 (max 1 ⌊(data.length : ℚ) / (2000 : ℚ)⌋₊)

/-! ## The waveform synthesizer (src/unnamed/part_004, lines 13-58)

`placeholderWaveform` computes in `float64`; the model works over `ℚ`, with
`math.Sin` an abstract parameter `sin` (its only property used below is
`sin 0 = 0`, which holds exactly for `math.Sin`).  Line 19 of the source
builds `rand.New(rand.NewSource(int64(duration)))` and DISCARDS the result:
the loop's `rand.Float64()` calls read the package-global generator, so the
drawn values depend on global process state, not on `duration`; `rand i` is
the i-th value drawn from that global generator at call time. -/

/-- The exact rational value of the `float64` constant `math.Pi`. -/
def goPi : ℚ := 884279719003555 / 281474976710656

/-- One byte of the synthesized waveform (loop body, lines 28-55). -/
def waveformByte (sin : ℚ → ℚ) (rand : Nat → ℚ) (duration i : Nat) : Nat :=
  let baseAmplitude : ℚ := 35
  let frequencyFactor : ℚ := ((min duration 120 : Nat) : ℚ) / 30
  let pos : ℚ := (i : ℚ) / 64
  let val := baseAmplitude * sin (pos * goPi * frequencyFactor * 8)
  let val := val + (baseAmplitude / 2) * sin (pos * goPi * frequencyFactor * 16)
  let val := val + (rand i - 1 / 2) * 15
  let fadeInOut := sin (pos * goPi)
  let val := val * (7 / 10 + 3 / 10 * fadeInOut)
  let val := val + 50
  let val := if val < 0 then 0 else if val > 100 then 100 else val
  (⌊val⌋).toNat

/-- `placeholderWaveform`: the 64 bytes, index i consuming the i-th global
pseudo-random draw. -/
def placeholderWaveform (sin : ℚ → ℚ) (rand : Nat → ℚ) (duration : Nat) : Bytes :=
  (List.range 64).map (waveformByte sin rand duration)

/-! ## The message store (src/utils/db.go) -/

/-- One row of the `chats` table. -/
structure ChatRow where
  name : String
  lastMessageTime : Nat
  deriving DecidableEq

/-- One row of the `messages` table (the non-key columns). -/
structure MessageRow where
  sender : String
  content : String
  timestamp : Nat
  isFromMe : Bool
  mediaType : String
  filename : String
  url : String
  mediaKey : Bytes
  fileSHA256 : Bytes
  fileEncSHA256 : Bytes
  fileLength : Nat
  deriving DecidableEq

/-- `INSERT ... ON CONFLICT DO UPDATE`: insert at the end, or overwrite the
row in place on key conflict. -/
def upsertRow {κ ρ : Type} [DecidableEq κ] : List (κ × ρ) → κ → ρ → List (κ × ρ)
  | [], k, v => [(k, v)]
  | (k', v') :: rest, k, v =>
    if k' = k then (k, v) :: rest else (k', v') :: upsertRow rest k v

/-- `SELECT ... WHERE key = k`: the first matching row. -/
def lookupRow {κ ρ : Type} [DecidableEq κ] : List (κ × ρ) → κ → Option ρ
  | [], _ => none
  | (k', v') :: rest, k => if k' = k then some v' else lookupRow rest k

/-- The two tables the `MessageStore` owns. -/
structure DB where
  chats : List (String × ChatRow)
  messages : List ((String × String) × MessageRow)
  deriving DecidableEq

/-- `storeChat` (db.go lines 124-135): upsert keyed on `jid`, overwriting
`name` and `last_message_time` unconditionally with the new values. -/
def storeChat (db : DB) (jid name : String) (lastMessageTime : Nat) : DB :=
  { db with chats := upsertRow db.chats jid ⟨name, lastMessageTime⟩ }

/-- `storeMessage` (db.go lines 138-173): silently a no-op (not an error) when
both content and media type are empty; otherwise upsert keyed on
`(id, chat_jid)`, overwriting every non-key column. -/
def storeMessage (db : DB) (id chatJID sender content : String) (timestamp : Nat)
    (isFromMe : Bool) (mediaType filename url : String)
    (mediaKey fileSHA256 fileEncSHA256 : Bytes) (fileLength : Nat) : DB :=
  if content = "" ∧ mediaType = "" then db
  else
    { db with
      messages := upsertRow db.messages (id, chatJID)
        ⟨sender, content, timestamp, isFromMe, mediaType, filename, url,
          mediaKey, fileSHA256, fileEncSHA256, fileLength⟩ }

/-! ## The chat identity resolver (src/unnamed/part_001) -/

/-- A parsed JID (`types.JID`): local part and server. -/
structure JID where
  user : String
  server : String
  deriving DecidableEq

/-- The two optional name fields `getChatName` probes reflectively on a
history-sync conversation (lines 37-59): a `none` models a nil pointer. -/
structure ConvMeta where
  displayName : Option String
  name : Option String
  deriving DecidableEq

/-- The read-only directory lookups `getChatName` may perform: a successful
`GetGroupInfo` yields `groupName`, a successful `GetContact` yields
`contactFullName`; `none` models a lookup error. -/
structure NameDir where
  groupName : Option String
  contactFullName : Option String
  deriving DecidableEq

/-- Lines 24-93 of `getChatName`: the name computed when no stored name
short-circuits.  `ptr != nil && *ptr != ""` is modelled as `getD "" ≠ ""`. -/
def getChatNameFresh (dir : NameDir) (jid : JID) (conversation : Option ConvMeta)
    (sender : String) : String :=
  if jid.server = "g.us" then
    let fromConv :=
      match conversation with
      | none => ""
      | some c =>
        if c.displayName.getD "" ≠ "" then c.displayName.getD ""
        else if c.name.getD "" ≠ "" then c.name.getD ""
        else ""
    if fromConv ≠ "" then fromConv
    else
      match dir.groupName with
      | some gn => if gn ≠ "" then gn else "Group " ++ jid.user
      | none => "Group " ++ jid.user
  else
    match dir.contactFullName with
    | some fn => if fn ≠ "" then fn else if sender ≠ "" then sender else jid.user
    | none => if sender ≠ "" then sender else jid.user

/-- `getChatName` (src/unnamed/part_001, lines 14-94): an existing chat row
with a non-empty name short-circuits every other lookup. -/
def getChatName (db : DB) (dir : NameDir) (jid : JID) (chatJID : String)
    (conversation : Option ConvMeta) (sender : String) : String :=
  match lookupRow db.chats chatJID with
  | some row =>
    if row.name ≠ "" then row.name
    else getChatNameFresh dir jid conversation sender
  | none => getChatNameFresh dir jid conversation sender

/-! ## The archival uploader (src/utils/s3.go, src/unnamed/part_002-003) -/

/-- The object store: one bucket's objects, key ↦ bytes. -/
abbrev Bucket := List (String × Bytes)

/-- `[]byte(s)`: the UTF-8 bytes of a string. -/
def strBytes (s : String) : Bytes := s.toUTF8.toList.map (fun b => b.toNat)

/-- `uploadToS3` (s3.go lines 47-100): list the bucket's objects; if the exact
key is already present return the error `object <key> already exists` WITHOUT
touching the object; otherwise put the bytes at the key.  The put and the
read-after-write waiter are modelled as succeeding; the bucket-missing and
oversize failure branches are collaborator faults no claim exercises. -/
def uploadToS3 (bucket : Bucket) (objectKey : String) (mediaData : Bytes) :
    Except String Unit × Bucket :=
  if (lookupRow bucket objectKey).isSome then
    (.error ("object " ++ objectKey ++ " already exists"), bucket)
  else (.ok (), upsertRow bucket objectKey mediaData)

/-- `downloadWhatsAppMedia` (src/unnamed/part_002, lines 250-303).  `download`
is the result of `client.Download`, whatsmeow's fetch-and-decrypt of the
referenced bytes from `url`/direct path using `mediaKey`, the two hashes and
the length.  The guard of lines 257-259 rejects every media type other than
`"audio"` before the image/video/document arms of the later switch, which are
therefore unreachable.  (The message/chat ids feed only log lines.) -/
def downloadWhatsAppMedia (download : Except String Bytes)
    (mediaType url : String) (mediaKey fileSHA256 fileEncSHA256 : Bytes)
    (fileLength : Nat) : Except String Bytes :=
  if mediaType = "" then .error "not a media message"
  else if mediaType ≠ "audio" then .error ("unsupported media type: " ++ mediaType)
  else if url = "" ∨ mediaKey = [] ∨ fileSHA256 = [] ∨ fileEncSHA256 = [] ∨ fileLength = 0 then
    .error "incomplete media information for download"
  else
    match download with
    | .error e => .error ("failed to download media: " ++ e)
    | .ok raw => .ok raw

/-- `uploadMessageToS3` (s3.go lines 104-132): media download takes precedence
over textual content as the raw bytes; destination key
`input/<chatJID>/<filename>`; returns `<bucket>/<key>` on success. -/
def uploadMessageToS3 (download : Except String Bytes) (bucket : Bucket)
    (bucketName content messageID chatJID mediaType filename url : String)
    (mediaKey fileSHA256 fileEncSHA256 : Bytes) (fileLength : Nat) :
    Except String String × Bucket :=
  if content = "" ∧ mediaType = "" then
    (.error ("no content or media to upload for message " ++ messageID), bucket)
  else
    let mediaData := if content ≠ "" then strBytes content else []
    let fetched : Except String Bytes :=
      if mediaType ≠ "" then
        downloadWhatsAppMedia download mediaType url mediaKey fileSHA256 fileEncSHA256 fileLength
      else .ok mediaData
    match fetched with
    | .error e => (.error ("failed to download media for S3 upload: " ++ e), bucket)
    | .ok raw =>
      let objectKey := "input/" ++ chatJID ++ "/" ++ filename
      match uploadToS3 bucket objectKey raw with
      | (.error e, b) => (.error ("failed to upload media to S3: " ++ e), b)
      | (.ok _, b) => (.ok (bucketName ++ "/" ++ objectKey), b)

/-! ## The event dispatcher (src/utils/event.go) -/

/-- Message-key data (`msg.Message.Key`); `none` models a nil pointer. -/
structure MsgKey where
  fromMe : Option Bool
  participant : Option String
  id : Option String
  deriving DecidableEq

/-- The extractable content of one protobuf message payload
(`*waProto.Message`): the text fields, and the result of `extractMediaInfo`
(whose variant dispatch and clock-derived default filenames are abstracted
into the record; `mediaType = ""` when no media variant is set). -/
structure MsgPayload where
  conversation : String
  extendedText : Option String
  mediaType : String
  filename : String
  url : String
  mediaKey : Bytes
  fileSHA256 : Bytes
  fileEncSHA256 : Bytes
  fileLength : Nat
  deriving DecidableEq

/-- What `extractMediaInfo`/text extraction yield for a nil payload. -/
def emptyPayload : MsgPayload := ⟨"", none, "", "", "", [], [], [], 0⟩

/-- The text the history-sync path extracts (event.go lines 62-70). -/
def payloadContent (p : MsgPayload) : String :=
  if p.conversation ≠ "" then p.conversation
  else
    match p.extendedText with
    | some t => t
    | none => ""

/-- One entry of `conversation.Messages`: `none` models the entry or its
`.Message` (`*WebMessageInfo`) being nil — the code treats the two alike
(`msg == nil || msg.Message == nil`). -/
structure WebMessageInfo where
  payload : Option MsgPayload
  key : Option MsgKey
  messageTimestamp : Nat
  deriving DecidableEq

/-- One conversation of a history-sync batch. -/
structure Conversation where
  id : Option String
  meta : ConvMeta
  messages : List (Option WebMessageInfo)
  deriving DecidableEq

/-- The collaborators the history-sync handler consults: the JID parser
(`types.ParseJID`, external), the name directory, the device's own user id
(`client.Store.ID.User`), and which message-store execs succeed (`false` at a
`(message id, chat jid)` key models a store write failure, which writes
nothing). -/
structure SyncEnv where
  parseJID : String → Option JID
  dir : NameDir
  ownUser : String
  msgExecOk : String × String → Bool

/-- The sender determination of event.go lines 89-105. -/
def senderOf (env : SyncEnv) (jid : JID) (key : Option MsgKey) : String :=
  match key with
  | none => jid.user
  | some k =>
    let isFromMe := k.fromMe.getD false
    if ¬ isFromMe ∧ k.participant.getD "" ≠ "" then k.participant.getD ""
    else if isFromMe then env.ownUser
    else jid.user

/-- The per-message body of the history-sync loop (event.go lines 57-148):
the store after the message, and 1 exactly when it was stored successfully. -/
def syncStoreMessage (env : SyncEnv) (jid : JID) (chatJID : String) (db : DB)
    (entry : Option WebMessageInfo) : DB × Nat :=
  match entry with
  | none => (db, 0)
  | some wmi =>
    let p := wmi.payload.getD emptyPayload
    let content := payloadContent p
    if content = "" ∧ p.mediaType = "" then (db, 0)
    else
      let isFromMe := (wmi.key.bind (·.fromMe)).getD false
      let sender := senderOf env jid wmi.key
      let msgID := (wmi.key.bind (·.id)).getD ""
      if wmi.messageTimestamp = 0 then (db, 0)
      else if env.msgExecOk (msgID, chatJID) then
        (storeMessage db msgID chatJID sender content wmi.messageTimestamp isFromMe
          p.mediaType p.filename p.url p.mediaKey p.fileSHA256 p.fileEncSHA256 p.fileLength, 1)
      else (db, 0)

/-- One conversation of `HandleHistorySync` (event.go lines 20-149): resolve
the name; when the FIRST delivered entry is present with a non-zero
timestamp, upsert the chat ONCE with that first message's timestamp and then
run the message loop; otherwise skip the conversation entirely.  (The
handler discards `storeChat`'s error return; the chat exec is modelled as
succeeding.) -/
def processConversation (env : SyncEnv) (db : DB) (conversation : Conversation) : DB × Nat :=
  match conversation.id with
  | none => (db, 0)
  | some chatJID =>
    match env.parseJID chatJID with
    | none => (db, 0)
    | some jid =>
      let name := getChatName db env.dir jid chatJID (some conversation.meta) ""
      match conversation.messages with
      | [] => (db, 0)
      | latest :: _ =>
        match latest with
        | none => (db, 0)
        | some wmi =>
          if wmi.messageTimestamp = 0 then (db, 0)
          else
            conversation.messages.foldl
              (fun acc entry =>
                let r := syncStoreMessage env jid chatJID acc.1 entry
                (r.1, acc.2 + r.2))
              (storeChat db chatJID name wmi.messageTimestamp, 0)

/-- `HandleHistorySync` (event.go lines 16-153): fold the batch's
conversations in delivered order; the second component is the reported count
of successfully stored messages. -/
def HandleHistorySync (env : SyncEnv) (db : DB) (conversations : List Conversation) :
    DB × Nat :=
  conversations.foldl
    (fun acc conversation =>
      let r := processConversation env acc.1 conversation
      (r.1, acc.2 + r.2))
    (db, 0)

/-- The observable steps of the live-message handler, in source order. -/
inductive Step
  | chatUpsert
  | messageUpsert
  | s3Upload
  | receptionLog
  deriving DecidableEq

/-- One live message: the identity fields of `msg.Info` plus the output of
`extractMessageContent` (clock-derived default filenames are part of the
extracted record). -/
structure LiveMsg where
  messageID : String
  chatJID : String
  chat : JID
  sender : String
  timestamp : Nat
  isFromMe : Bool
  content : String
  mediaType : String
  filename : String
  url : String
  mediaKey : Bytes
  fileSHA256 : Bytes
  fileEncSHA256 : Bytes
  fileLength : Nat

/-- The collaborators of the live path: the name directory, the configured
bucket name, the whatsmeow download result for this message, and whether each
store exec succeeds (a failing exec writes nothing). -/
structure LiveEnv where
  dir : NameDir
  bucketName : String
  download : Except String Bytes
  chatExecOk : Bool
  msgExecOk : Bool

/-- The mutable world the pipeline touches: the two tables and the bucket. -/
structure World where
  db : DB
  bucket : Bucket

/-- `HandleMessage` (event.go lines 156-222): the two content filters, then
chat upsert (its failure only logged, lines 180-185), then message upsert
(its failure RETURNS, lines 204-206, skipping archival), then the S3 upload
(its failure returns before the reception log), then the reception log.
Returns the final world and the ordered list of steps attempted. -/
def HandleMessage (env : LiveEnv) (w : World) (m : LiveMsg) : World × List Step :=
  if m.content = "" ∧ m.mediaType ≠ "audio" then (w, [])
  else if m.content = "" ∧ m.mediaType = "" then (w, [])
  else
    let name := getChatName w.db env.dir m.chat m.chatJID none m.sender
    let db1 := if env.chatExecOk then storeChat w.db m.chatJID name m.timestamp else w.db
    if ¬ env.msgExecOk then ({ w with db := db1 }, [.chatUpsert, .messageUpsert])
    else
      let db2 := storeMessage db1 m.messageID m.chatJID m.sender m.content m.timestamp
        m.isFromMe m.mediaType m.filename m.url m.mediaKey m.fileSHA256 m.fileEncSHA256
        m.fileLength
      let up := uploadMessageToS3 env.download w.bucket env.bucketName m.content m.messageID
        m.chatJID m.mediaType m.filename m.url m.mediaKey m.fileSHA256 m.fileEncSHA256
        m.fileLength
      match up.1 with
      | .error _ => (⟨db2, up.2⟩, [.chatUpsert, .messageUpsert, .s3Upload])
      | .ok _ => (⟨db2, up.2⟩, [.chatUpsert, .messageUpsert, .s3Upload, .receptionLog])

/-- One dispatched event of the pipeline (src/unnamed/part_000, lines 76-92). -/
inductive PipelineEvent
  | live (env : LiveEnv) (m : LiveMsg)
  | sync (env : SyncEnv) (conversations : List Conversation)

/-- The world after one event. -/
def applyEvent (w : World) : PipelineEvent → World
  | .live env m => (HandleMessage env w m).1
  | .sync env conversations => { w with db := (HandleHistorySync env w.db conversations).1 }

/-- The world after a sequence of dispatched events. -/
def runPipeline (w : World) : List PipelineEvent → World
  | [] => w
  | e :: rest => runPipeline (applyEvent w e) rest

/-! ## Concrete inputs used by witnesses and counterexamples -/

/-- Two well-formed header-only Ogg pages (27 bytes each: signature, version,
header type, 8-byte LE granule, serial, sequence, CRC, zero segment count)
with granule positions 96000 then 48000, and one trailing byte so the scan's
`i+27 >= len` break does not cut the second page. -/
def oggTwoPages : Bytes :=
  oggSig ++ [0, 0] ++ [0, 119, 1, 0, 0, 0, 0, 0] ++ List.replicate 13 0 ++
  oggSig ++ [0, 0] ++ [128, 187, 0, 0, 0, 0, 0, 0] ++ List.replicate 13 0 ++ [0]

/-! ## Claims about the Ogg/Opus analyzer -/

theorem probeOpusHead_lastGranule (data : Bytes) (i pageSize : Nat) (st st' : OggState)
    (h : probeOpusHead data i pageSize st = some st') :
    st'.lastGranule = st.lastGranule := by
  unfold probeOpusHead at h
  by_cases h0 : data.length < i + pageSize
  · rw [if_pos h0] at h; cases h
  · rw [if_neg h0] at h
    dsimp only at h
    cases hidx : indexOfSub opusHeadSig (slice data i (i + pageSize)) with
    | none =>
      rw [hidx] at h
      cases h
      rfl
    | some headPos =>
      rw [hidx] at h
      dsimp only at h
      split at h
      · split at h
        · split at h
          · cases h
          · cases h; rfl
        · cases h; rfl
      · cases h; rfl

/-- When the scan completes without a panic, its `lastGranule` is the fold of
"keep the last non-zero" over the granule positions of the visited pages, in
visit order. -/
theorem oggLoop_lastGranule (data : Bytes) (fuel : Nat) :
    ∀ i st st', oggLoop data fuel i st = some st' →
      st'.lastGranule =
        (pageGranules data fuel i).foldl (fun acc g => if g ≠ 0 then g else acc)
          st.lastGranule := by
  induction fuel with
  | zero =>
    intro i st st' h
    cases h
    rfl
  | succ fuel ih =>
    intro i st st' h
    rw [oggLoop] at h
    simp only [pageGranules]
    by_cases h1 : i < data.length
    · rw [if_pos h1] at h
      simp only [if_pos h1]
      by_cases h2 : data.length ≤ i + 27
      · rw [if_pos h2] at h
        cases h
        simp only [if_pos h2, List.foldl_nil]
      · rw [if_neg h2] at h
        simp only [if_neg h2]
        by_cases h3 : slice data i (i + 4) ≠ oggSig
        · rw [if_pos h3] at h
          simp only [if_pos h3]
          exact ih (i + 1) st st' h
        · rw [if_neg h3] at h
          simp only [if_neg h3]
          by_cases h4 : data.length ≤ i + 27 + data.getD (i + 26) 0
          · rw [if_pos h4] at h
            cases h
            simp only [if_pos h4, List.foldl_nil]
          · rw [if_neg h4] at h
            simp only [if_neg h4, List.foldl_cons]
            dsimp only at h
            cases hpr : (if ¬ st.foundOpusHead ∧ leUint (slice data (i + 18) (i + 22)) ≤ 1
                then
                  probeOpusHead data i
                    (27 + data.getD (i + 26) 0 +
                      (slice data (i + 27) (i + 27 + data.getD (i + 26) 0)).sum) st
                else some st) with
            | none => rw [hpr] at h; cases h
            | some st1 =>
              rw [hpr] at h
              dsimp only at h
              rw [ih _ _ _ h]
              congr 1
              have hst1 : st1.lastGranule = st.lastGranule := by
                by_cases hc : ¬ st.foundOpusHead ∧ leUint (slice data (i + 18) (i + 22)) ≤ 1
                · rw [if_pos hc] at hpr
                  exact probeOpusHead_lastGranule _ _ _ _ _ hpr
                · rw [if_neg hc] at hpr
                  cases hpr
                  rfl
              by_cases h5 : leUint (slice data (i + 6) (i + 14)) ≠ 0
              · rw [if_pos h5, if_pos h5]
              · rw [if_neg h5, if_neg h5]
                exact hst1
    · rw [if_neg h1] at h
      cases h
      simp only [if_neg h1, List.foldl_nil]

/-- C5 (amended): whenever the analyzer completes its scan, the granule value
its duration formula consumes is the LAST non-zero granule position
encountered across the parsed pages in scan order — a later page overwrites
it even with a smaller value — not the maximum across pages. -/
theorem analyze_granule_is_last_nonzero (data : Bytes) (st : OggState)
    (h : analyzeScan data = some st) :
    st.lastGranule = lastNonZero (pageGranules data (data.length + 1) 0) :=
  oggLoop_lastGranule data (data.length + 1) 0 ⟨0, 48000, 0, false⟩ st h

/-- C5 witness: the two-page input completes its scan with `lastGranule`
48000, the last non-zero granule position. -/
theorem analyze_granule_is_last_nonzero_witness :
    (⟨48000, 48000, 0, false⟩ : OggState).lastGranule =
      lastNonZero (pageGranules oggTwoPages (oggTwoPages.length + 1) 0) :=
  analyze_granule_is_last_nonzero oggTwoPages ⟨48000, 48000, 0, false⟩ (by decide)

/-- C5 (counterexample): on two pages with granule positions 96000 then 48000
the analyzer uses 48000 — the last non-zero value, giving duration 1 — while
the highest non-zero granule position seen is 96000, whose duration would be
2: the granule value used is not the monotonic high-water mark. -/
theorem analyze_highest_granule_counterexample :
    analyzeScan oggTwoPages = some ⟨48000, 48000, 0, false⟩ ∧
    specHighestGranule (pageGranules oggTwoPages (oggTwoPages.length + 1) 0) = 96000 ∧
    AnalyzeOggOpus oggTwoPages = .ok 1 ∧
    ceilDiv 96000 48000 = 2 :=
  ⟨by decide, by decide, by decide, by decide⟩

theorem ceilDiv_eq_ceil (a b : Nat) : ceilDiv a b = ⌈(a : ℚ) / (b : ℚ)⌉₊ := by
  unfold ceilDiv
  rcases Nat.eq_zero_or_pos b with hb | hb
  · subst hb; simp
  · rw [if_neg (by omega)]
    have hbq : (0 : ℚ) < (b : ℚ) := by exact_mod_cast hb
    rcases Nat.eq_zero_or_pos a with ha | ha
    · subst ha
      rw [Nat.zero_add, Nat.div_eq_of_lt (by omega)]
      simp
    · have hq := Nat.div_add_mod (a + b - 1) b
      have hr : (a + b - 1) % b < b := Nat.mod_lt _ hb
      have hq1 : 1 ≤ (a + b - 1) / b := by
        have hble : b ≤ a + b - 1 := by omega
        calc 1 = b / b := (Nat.div_self hb).symm
        _ ≤ (a + b - 1) / b := Nat.div_le_div_right hble
      symm
      rw [Nat.ceil_eq_iff (by omega)]
      constructor
      · rw [lt_div_iff₀ hbq]
        have h2 : ((a + b - 1) / b - 1) * b < a := by
          rw [Nat.sub_mul, one_mul, Nat.mul_comm]
          omega
        exact_mod_cast h2
      · rw [div_le_iff₀ hbq]
        have h3 : a ≤ (a + b - 1) / b * b := by
          rw [Nat.mul_comm]
          omega
        exact_mod_cast h3

theorem clamp_eq_min_max (d : Nat) :
    (if d < 1 then 1 else if d > 300 then 300 else d) = min 300 (max 1 d) := by
  rcases Nat.lt_or_ge d 1 with h | h
  · rw [if_pos h]; omega
  · rw [if_neg (by omega)]
    rcases Nat.lt_or_ge 300 d with h2 | h2
    · rw [if_pos (by omega)]; omega
    · rw [if_neg (by omega)]; omega

/-- C7: for every accepted input the returned duration is the spec's formula —
ceiling of (granule − pre-skip, as the uint64 subtraction) over the sample
rate when a non-zero granule was seen, else the floor of length/2000 — and in
all cases it lies in [1, 300]. -/
theorem analyze_duration_spec (data : Bytes) (d : Nat)
    (h : AnalyzeOggOpus data = .ok d) :
    d = specOggDuration data ∧ 1 ≤ d ∧ d ≤ 300 := by
  unfold AnalyzeOggOpus at h
  unfold specOggDuration
  by_cases hsig : data.length < 4 ∨ slice data 0 4 ≠ oggSig
  · rw [if_pos hsig] at h; cases h
  · rw [if_neg hsig] at h
    cases hscan : analyzeScan data with
    | none => rw [hscan] at h; cases h
    | some st =>
      rw [hscan] at h
      dsimp only at h
      rw [OggResult.ok.injEq] at h
      subst h
      dsimp only
      rw [clamp_eq_min_max]
      constructor
      · by_cases hg : 0 < st.lastGranule
        · rw [if_pos hg, if_pos hg, ceilDiv_eq_ceil]
        · rw [if_neg hg, if_neg hg]
          congr 1
          congr 1
          rw [show (2000 : ℚ) = ((2000 : Nat) : ℚ) by norm_num,
            Nat.floor_div_nat, Nat.floor_natCast]
      · omega

/-- C7 witness: the concrete two-page input, accepted with duration 1. -/
theorem analyze_duration_spec_witness :
    1 = specOggDuration oggTwoPages ∧ 1 ≤ 1 ∧ 1 ≤ 300 :=
  analyze_duration_spec oggTwoPages 1 (by decide)

/-- A 30-byte signature-carrying input: one page whose header declares one
segment of claimed length 255, so pageSize = 27 + 1 + 255 = 283.  Lines 94-96
of the source only check the segment TABLE against the input; the probe then
slices `data[0:283]` out of a 30-byte input and panics.  Layout: "OggS",
version, header type, 8-byte granule (0), serial/sequence/CRC (0), segment
count 1, segment length 255, two trailing bytes. -/
def oggPanicInput : Bytes :=
  oggSig ++ [0, 0] ++ List.replicate 8 0 ++ List.replicate 12 0 ++ [1] ++ [255] ++ [0, 0]

/-- C8 (counterexample): the missing-signature case is NOT the only hard
failure: `oggPanicInput` carries the OggS signature, yet the analyzer aborts
with a runtime slice-bounds panic — producing neither the FormatError nor a
degraded fallback duration. -/
theorem analyze_panic_counterexample :
    AnalyzeOggOpus oggPanicInput = .panic ∧
    slice oggPanicInput 0 4 = oggSig ∧
    AnalyzeOggOpus oggPanicInput ≠
      .error "not a valid Ogg file (missing OggS signature)" :=
  ⟨by decide, by decide, by decide⟩

/-- C8 (amended): the missing-signature case (inputs shorter than 4 bytes
included) is the analyzer's only ERROR RETURN — the FormatError, with no
duration and no waveform — and the only failure on inputs whose pages stay in
bounds; but it is not the only hard failure: a signature-carrying input
either yields a duration (every other anomaly degrading to fallbacks) or
aborts with a runtime slice-bounds panic when a page's claimed size overruns
the input inside the OpusHead probe. -/
theorem analyze_error_iff (data : Bytes) :
    (AnalyzeOggOpus data = .error "not a valid Ogg file (missing OggS signature)" ↔
      (data.length < 4 ∨ slice data 0 4 ≠ oggSig)) ∧
    (¬ (data.length < 4 ∨ slice data 0 4 ≠ oggSig) →
      (∃ d, AnalyzeOggOpus data = .ok d) ∨ AnalyzeOggOpus data = .panic) := by
  unfold AnalyzeOggOpus
  by_cases hsig : data.length < 4 ∨ slice data 0 4 ≠ oggSig
  · simp [hsig]
  · rw [if_neg hsig]
    constructor
    · constructor
      · intro hcon
        cases hscan : analyzeScan data with
        | none => rw [hscan] at hcon; simp at hcon
        | some st => rw [hscan] at hcon; simp at hcon
      · intro hcon
        exact absurd hcon hsig
    · intro _
      cases hscan : analyzeScan data with
      | none => exact Or.inr rfl
      | some st => exact Or.inl ⟨_, rfl⟩

/-! ## Claim about the waveform synthesizer -/

/-- C2 evidence: the synthesized waveform is NOT a function of the duration
alone.  The first byte consumes the first value drawn from the package-global
generator (the generator seeded with the duration is discarded on line 19 of
the source): with the same duration 5, a call that draws 0 first and a call
that draws 1/2 first produce different waveforms (first byte 44 versus 50).
`sin 0 = 0` is the one property of `math.Sin` used. -/
theorem placeholderWaveform_depends_on_global_state (sin : ℚ → ℚ) (r₁ r₂ : Nat → ℚ)
    (hs : sin 0 = 0) (h1 : r₁ 0 = 0) (h2 : r₂ 0 = 1 / 2) :
    placeholderWaveform sin r₁ 5 ≠ placeholderWaveform sin r₂ 5 := by
  have e1 : waveformByte sin r₁ 5 0 = 44 := by
    unfold waveformByte
    norm_num [hs, h1]
    rfl
  have e2 : waveformByte sin r₂ 5 0 = 50 := by
    unfold waveformByte
    norm_num [hs, h2]
    rfl
  intro h
  have h0 := congrArg (fun l => l.getD 0 0) h
  simp only [placeholderWaveform] at h0
  rw [show (List.range 64) = 0 :: List.range' 1 63 from by decide] at h0
  simp only [List.map_cons, List.getD_cons_zero, e1, e2] at h0
  exact absurd h0 (by decide)

/-- C2 witness at fully concrete inputs: same duration, different global
generator states, different waveforms. -/
theorem placeholderWaveform_global_state_witness :
    placeholderWaveform (fun _ => 0) (fun _ => 0) 5 ≠
      placeholderWaveform (fun _ => 0) (fun _ => 1 / 2) 5 :=
  placeholderWaveform_depends_on_global_state (fun _ => 0) (fun _ => 0) (fun _ => 1 / 2)
    rfl rfl rfl

/-! ## Store lemmas -/

theorem lookupRow_upsertRow {κ ρ : Type} [DecidableEq κ] (l : List (κ × ρ)) (k k' : κ)
    (v : ρ) :
    lookupRow (upsertRow l k v) k' = if k' = k then some v else lookupRow l k' := by
  induction l with
  | nil =>
    simp only [upsertRow, lookupRow]
    by_cases h : k = k'
    · rw [if_pos h, if_pos h.symm]
    · rw [if_neg h, if_neg (fun hh => h hh.symm)]
  | cons p rest ih =>
    obtain ⟨k0, v0⟩ := p
    by_cases h0 : k0 = k
    · subst h0
      simp only [upsertRow, if_pos rfl, lookupRow]
      by_cases h' : k0 = k'
      · rw [if_pos h', if_pos h'.symm]
      · rw [if_neg h', if_neg (fun hh => h' hh.symm), if_neg h']
    · simp only [upsertRow, if_neg h0, lookupRow]
      by_cases h1 : k0 = k'
      · subst h1
        rw [if_pos rfl, if_neg h0, if_pos rfl]
      · rw [if_neg h1, ih, if_neg h1]

theorem storeMessage_chats (db : DB) (id chatJID sender content : String) (timestamp : Nat)
    (isFromMe : Bool) (mediaType filename url : String)
    (mediaKey fileSHA256 fileEncSHA256 : Bytes) (fileLength : Nat) :
    (storeMessage db id chatJID sender content timestamp isFromMe mediaType filename url
      mediaKey fileSHA256 fileEncSHA256 fileLength).chats = db.chats := by
  unfold storeMessage
  split <;> rfl

theorem syncStoreMessage_chats (env : SyncEnv) (jid : JID) (chatJID : String) (db : DB)
    (entry : Option WebMessageInfo) :
    (syncStoreMessage env jid chatJID db entry).1.chats = db.chats := by
  unfold syncStoreMessage
  cases entry with
  | none => rfl
  | some wmi =>
    dsimp only
    split
    · rfl
    · split
      · rfl
      · split
        · exact storeMessage_chats _ _ _ _ _ _ _ _ _ _ _ _ _ _
        · rfl

theorem syncFold_chats (env : SyncEnv) (jid : JID) (chatJID : String)
    (entries : List (Option WebMessageInfo)) :
    ∀ acc : DB × Nat,
      (entries.foldl (fun acc entry =>
        let r := syncStoreMessage env jid chatJID acc.1 entry
        (r.1, acc.2 + r.2)) acc).1.chats = acc.1.chats := by
  induction entries with
  | nil => intro acc; rfl
  | cons e rest ih =>
    intro acc
    rw [List.foldl_cons, ih]
    exact syncStoreMessage_chats env jid chatJID acc.1 e

theorem getChatName_of_stored (db : DB) (dir : NameDir) (jid : JID) (chatJID : String)
    (conversation : Option ConvMeta) (sender : String) (row : ChatRow)
    (h : lookupRow db.chats chatJID = some row) (hne : row.name ≠ "") :
    getChatName db dir jid chatJID conversation sender = row.name := by
  unfold getChatName
  rw [h]
  exact if_pos hne

/-- The C9 invariant at one chat id: a row exists and its name is non-empty. -/
def hasName (db : DB) (jid : String) : Prop :=
  ∃ row, lookupRow db.chats jid = some row ∧ row.name ≠ ""

theorem hasName_of_chats_eq {db db' : DB} (h : db'.chats = db.chats) (j : String)
    (hn : hasName db j) : hasName db' j := by
  obtain ⟨row, hr, hne⟩ := hn
  exact ⟨row, h ▸ hr, hne⟩

/-- Every chat upsert of the pipeline writes the name `getChatName` resolved
against the same store: a stored non-empty name survives it. -/
theorem hasName_storeChat_getChatName (db : DB) (dir : NameDir) (jidP : JID)
    (chatJID : String) (conversation : Option ConvMeta) (sender : String) (t : Nat)
    (j : String) (h : hasName db j) :
    hasName (storeChat db chatJID (getChatName db dir jidP chatJID conversation sender) t)
      j := by
  obtain ⟨row, hrow, hne⟩ := h
  by_cases hj : j = chatJID
  · subst hj
    refine ⟨⟨getChatName db dir jidP j conversation sender, t⟩, ?_, ?_⟩
    · unfold storeChat
      dsimp only
      rw [lookupRow_upsertRow, if_pos rfl]
    · rw [getChatName_of_stored db dir jidP j conversation sender row hrow hne]
      exact hne
  · refine ⟨row, ?_, hne⟩
    unfold storeChat
    dsimp only
    rw [lookupRow_upsertRow, if_neg hj]
    exact hrow

theorem hasName_processConversation (env : SyncEnv) (db : DB)
    (conversation : Conversation) (j : String) (h : hasName db j) :
    hasName (processConversation env db conversation).1 j := by
  unfold processConversation
  cases hid : conversation.id with
  | none => exact h
  | some chatJID =>
    dsimp only
    cases hj : env.parseJID chatJID with
    | none => exact h
    | some jid =>
      dsimp only
      cases hm : conversation.messages with
      | nil => exact h
      | cons latest rest =>
        cases latest with
        | none => exact h
        | some wmi =>
          dsimp only
          split
          · exact h
          · refine hasName_of_chats_eq ?_ j
              (hasName_storeChat_getChatName db env.dir jid chatJID
                (some conversation.meta) "" wmi.messageTimestamp j h)
            exact syncFold_chats env jid chatJID (some wmi :: rest) _

theorem hasName_handleHistorySync (env : SyncEnv) (db : DB)
    (conversations : List Conversation) (j : String) (h : hasName db j) :
    hasName (HandleHistorySync env db conversations).1 j := by
  unfold HandleHistorySync
  suffices H : ∀ acc : DB × Nat, hasName acc.1 j →
      hasName ((conversations.foldl (fun acc conversation =>
        let r := processConversation env acc.1 conversation
        (r.1, acc.2 + r.2)) acc)).1 j from H (db, 0) h
  induction conversations with
  | nil => intro acc hacc; exact hacc
  | cons c rest ih =>
    intro acc hacc
    rw [List.foldl_cons]
    exact ih _ (hasName_processConversation env acc.1 c j hacc)

theorem hasName_handleMessage (env : LiveEnv) (w : World) (m : LiveMsg) (j : String)
    (h : hasName w.db j) : hasName (HandleMessage env w m).1.db j := by
  unfold HandleMessage
  split
  · exact h
  · split
    · exact h
    · dsimp only
      have hd1 : hasName (if env.chatExecOk then
          storeChat w.db m.chatJID
            (getChatName w.db env.dir m.chat m.chatJID none m.sender) m.timestamp
        else w.db) j := by
        split
        · exact hasName_storeChat_getChatName w.db env.dir m.chat m.chatJID none m.sender
            m.timestamp j h
        · exact h
      split
      · exact hd1
      · split
        · exact hasName_of_chats_eq
            (storeMessage_chats _ _ _ _ _ _ _ _ _ _ _ _ _ _) j hd1
        · exact hasName_of_chats_eq
            (storeMessage_chats _ _ _ _ _ _ _ _ _ _ _ _ _ _) j hd1

theorem hasName_runPipeline (events : List PipelineEvent) :
    ∀ w : World, ∀ j : String, hasName w.db j → hasName (runPipeline w events).db j := by
  induction events with
  | nil => intro w j h; exact h
  | cons e rest ih =>
    intro w j h
    refine ih _ j ?_
    cases e with
    | live env m => exact hasName_handleMessage env w m j h
    | sync env conversations => exact hasName_handleHistorySync env w.db conversations j h

/-! ## Concrete pipeline data for witnesses and counterexamples -/

/-- The empty store. -/
def dbEmpty : DB := ⟨[], []⟩

/-- A history-sync environment: the one group JID parses, the directory knows
nothing, and every store exec succeeds. -/
def envC3 : SyncEnv :=
  { parseJID := fun s => if s = "123@g.us" then some ⟨"123", "g.us"⟩ else none
    dir := ⟨none, none⟩
    ownUser := "me"
    msgExecOk := fun _ => true }

/-- A well-formed history-sync entry: text `text`, id `mid`, timestamp `ts`. -/
def histMsg (mid text : String) (ts : Nat) : Option WebMessageInfo :=
  some ⟨some { emptyPayload with conversation := text },
    some ⟨some false, none, some mid⟩, ts⟩

/-- A conversation with three messages, timestamps 1 < 2 < 3 delivered in that
order. -/
def convC3 : Conversation :=
  ⟨some "123@g.us", ⟨some "Family", none⟩,
    [histMsg "m1" "a" 1, histMsg "m2" "b" 2, histMsg "m3" "c" 3]⟩

/-- A conversation whose first delivered entry is nil but whose second message
is well formed. -/
def convSkip : Conversation :=
  ⟨some "123@g.us", ⟨some "Family", none⟩, [none, histMsg "m9" "late" 7]⟩

/-- A bucket already holding the destination key `input/chat1/f.txt`. -/
def bucketWith : Bucket := [("input/chat1/f.txt", strBytes "old")]

/-- A live text message that passes both content filters. -/
def liveText : LiveMsg :=
  ⟨"m1", "123@s.whatsapp.net", ⟨"123", "s.whatsapp.net"⟩, "456", 5, false,
    "hello", "", "text_1.txt", "", [], [], [], 0⟩

/-- A live environment whose message-upsert exec FAILS (chat exec succeeds). -/
def envMsgFail : LiveEnv := ⟨⟨none, some "Alice"⟩, "bkt", .error "unused", true, false⟩

/-- The empty world. -/
def wEmpty : World := ⟨dbEmpty, []⟩

/-- A world whose store already names chat `123@s.whatsapp.net` "Alice". -/
def wNamed : World := ⟨⟨[("123@s.whatsapp.net", ⟨"Alice", 1⟩)], []⟩, []⟩

/-- A live environment with healthy store execs but no directory data. -/
def envLiveOk : LiveEnv := ⟨⟨none, none⟩, "bkt", .error "unused", true, true⟩

/-! ## Claims about the archival uploader -/

/-- C1 (counterexample): with the destination key `input/chat1/f.txt` already
in the bucket, uploading the text message "hello" skips the put and leaves
the bucket unchanged — but returns the ERROR `object ... already exists`,
wrapped as a failed upload, not the success path `bkt/input/chat1/f.txt`. -/
theorem upload_existing_key_counterexample :
    uploadMessageToS3 (.error "unused") bucketWith "bkt" "hello" "m1" "chat1" "" "f.txt" ""
        [] [] [] 0 =
      (.error "failed to upload media to S3: object input/chat1/f.txt already exists",
        bucketWith) := rfl

/-- C1 (amended): when the destination key `input/<chat>/<filename>` already
exists, the uploader skips the put and leaves the bucket — hence the existing
object's bytes — unchanged, but the operation returns an error (`object <key>
already exists`, which `uploadMessageToS3` wraps as a failed upload), not the
fully qualified success path. -/
theorem upload_existing_key_skips_and_errors (download : Except String Bytes)
    (bucket : Bucket)
    (bucketName content messageID chatJID mediaType filename url : String)
    (mediaKey fileSHA256 fileEncSHA256 : Bytes) (fileLength : Nat)
    (hkey : (lookupRow bucket ("input/" ++ chatJID ++ "/" ++ filename)).isSome = true) :
    (∃ e, (uploadMessageToS3 download bucket bucketName content messageID chatJID mediaType
        filename url mediaKey fileSHA256 fileEncSHA256 fileLength).1 = .error e) ∧
    (uploadMessageToS3 download bucket bucketName content messageID chatJID mediaType
        filename url mediaKey fileSHA256 fileEncSHA256 fileLength).2 = bucket := by
  unfold uploadMessageToS3
  split
  · exact ⟨⟨_, rfl⟩, rfl⟩
  · dsimp only
    cases hf : (if mediaType ≠ "" then
        downloadWhatsAppMedia download mediaType url mediaKey fileSHA256 fileEncSHA256
          fileLength
      else .ok (if content ≠ "" then strBytes content else [])) with
    | error e => exact ⟨⟨_, rfl⟩, rfl⟩
    | ok raw =>
      dsimp only
      unfold uploadToS3
      rw [if_pos hkey]
      exact ⟨⟨_, rfl⟩, rfl⟩

/-- C1 witness: the amended claim at the concrete existing-key input. -/
theorem upload_existing_key_skips_and_errors_witness :
    (∃ e, (uploadMessageToS3 (.error "unused") bucketWith "bkt" "hello" "m1" "chat1" ""
        "f.txt" "" [] [] [] 0).1 = .error e) ∧
    (uploadMessageToS3 (.error "unused") bucketWith "bkt" "hello" "m1" "chat1" "" "f.txt" ""
        [] [] [] 0).2 = bucketWith :=
  upload_existing_key_skips_and_errors (.error "unused") bucketWith "bkt" "hello" "m1"
    "chat1" "" "f.txt" "" [] [] [] 0 (by decide)

/-- C6 (counterexample): a message with non-empty media type `"image"`,
complete media information and a download oracle that would succeed is NOT
fetched and uploaded: the downloader rejects every media type but `"audio"`
and the upload fails, the bucket untouched. -/
theorem media_image_not_fetched_counterexample :
    uploadMessageToS3 (.ok [7]) [] "bkt" "caption" "m2" "chat1" "image" "img.jpg" "u"
        [1] [2] [3] 9 =
      (.error "failed to download media for S3 upload: unsupported media type: image",
        []) := rfl

/-- C6 (amended): only `"audio"` media is fetched and decrypted.  For image,
video and document the downloader rejects with `unsupported media type` and
the upload fails with the bucket untouched; for audio with complete media
info whose fetch-and-decrypt succeeds, the decrypted bytes — not the textual
content — are put at the destination key and the qualified path returned. -/
theorem media_fetch_audio_only (download : Except String Bytes) (bucket : Bucket)
    (bucketName content messageID chatJID filename url : String)
    (mediaKey fileSHA256 fileEncSHA256 : Bytes) (fileLength : Nat) (raw : Bytes)
    (mediaType : String) :
    (mediaType = "image" ∨ mediaType = "video" ∨ mediaType = "document" →
      uploadMessageToS3 download bucket bucketName content messageID chatJID mediaType
          filename url mediaKey fileSHA256 fileEncSHA256 fileLength =
        (.error ("failed to download media for S3 upload: " ++
            ("unsupported media type: " ++ mediaType)), bucket)) ∧
    (mediaType = "audio" → url ≠ "" → mediaKey ≠ [] → fileSHA256 ≠ [] →
      fileEncSHA256 ≠ [] → fileLength ≠ 0 → download = .ok raw →
      lookupRow bucket ("input/" ++ chatJID ++ "/" ++ filename) = none →
      uploadMessageToS3 download bucket bucketName content messageID chatJID mediaType
          filename url mediaKey fileSHA256 fileEncSHA256 fileLength =
        (.ok (bucketName ++ "/" ++ ("input/" ++ chatJID ++ "/" ++ filename)),
          upsertRow bucket ("input/" ++ chatJID ++ "/" ++ filename) raw)) := by
  constructor
  · intro hmt
    have hne : mediaType ≠ "" := by
      rcases hmt with h | h | h <;> subst h <;> decide
    have hna : mediaType ≠ "audio" := by
      rcases hmt with h | h | h <;> subst h <;> decide
    unfold uploadMessageToS3
    rw [if_neg (fun hc => hne hc.2)]
    dsimp only
    rw [if_pos hne]
    unfold downloadWhatsAppMedia
    rw [if_neg hne, if_pos hna]
  · intro hmt hurl hkeyb hsha hench hlen hdl hfree
    subst hmt
    unfold uploadMessageToS3
    rw [if_neg (fun hc => absurd hc.2 (by decide))]
    dsimp only
    rw [if_pos (show ("audio" : String) ≠ "" by decide)]
    unfold downloadWhatsAppMedia
    rw [if_neg (show ¬ ("audio" : String) = "" by decide),
      if_neg (not_not_intro (show ("audio" : String) = "audio" from rfl)),
      if_neg (by push_neg; exact ⟨hurl, hkeyb, hsha, hench, hlen⟩), hdl]
    dsimp only
    unfold uploadToS3
    rw [if_neg (by rw [hfree]; decide)]

/-! ## Claims about the event dispatcher -/

/-- C4 (counterexample): a live text message whose message-upsert exec fails
never reaches the archival step: the handler attempts the chat upsert and the
message upsert and then returns — `s3Upload` is not among the attempted
steps, contradicting "the Archival Uploader step is still attempted". -/
theorem live_store_failure_blocks_archival_counterexample :
    (HandleMessage envMsgFail wEmpty liveText).2 = [.chatUpsert, .messageUpsert] ∧
    Step.s3Upload ∉ (HandleMessage envMsgFail wEmpty liveText).2 := by
  constructor
  · rfl
  · intro hmem
    rw [show (HandleMessage envMsgFail wEmpty liveText).2 =
      [.chatUpsert, .messageUpsert] from rfl] at hmem
    exact absurd hmem (by decide)

/-- C4 (amended): on the live path a failed message upsert DOES block the
archival attempt — the handler logs and returns, never invoking the uploader —
while a failed chat upsert does not block; for a message passing the content
filters the upload step is attempted exactly when the message-upsert exec
succeeds. -/
theorem live_upload_iff_message_upsert_ok (env : LiveEnv) (w : World) (m : LiveMsg)
    (hfilter : ¬ (m.content = "" ∧ m.mediaType ≠ "audio")) :
    (Step.s3Upload ∈ (HandleMessage env w m).2 ↔ env.msgExecOk = true) := by
  have hfilter2 : ¬ (m.content = "" ∧ m.mediaType = "") := by
    intro ⟨hc, hm⟩
    exact hfilter ⟨hc, by rw [hm]; decide⟩
  unfold HandleMessage
  rw [if_neg hfilter, if_neg hfilter2]
  dsimp only
  by_cases he : env.msgExecOk = true
  · rw [if_neg (not_not_intro he)]
    constructor
    · intro _; exact he
    · intro _
      split <;> simp
  · rw [if_pos he]
    show Step.s3Upload ∈ [Step.chatUpsert, Step.messageUpsert] ↔ env.msgExecOk = true
    simp [he]

/-- C4 witness: the amended claim at the concrete failing-exec input. -/
theorem live_upload_iff_message_upsert_ok_witness :
    Step.s3Upload ∈ (HandleMessage envMsgFail wEmpty liveText).2 ↔
      envMsgFail.msgExecOk = true :=
  live_upload_iff_message_upsert_ok envMsgFail wEmpty liveText (by decide)

/-- C3 (counterexample): a history-sync batch with one conversation holding
three stored messages with timestamps 1 < 2 < 3 delivered in that order
reports sync count 3, but the chat row's `last_message_time` is 1 — the FIRST
delivered message's timestamp — not 3. -/
theorem history_sync_latest_timestamp_counterexample :
    (HandleHistorySync envC3 dbEmpty [convC3]).2 = 3 ∧
    lookupRow (HandleHistorySync envC3 dbEmpty [convC3]).1.chats "123@g.us" =
      some ⟨"Family", 1⟩ ∧
    lookupRow (HandleHistorySync envC3 dbEmpty [convC3]).1.chats "123@g.us" ≠
      some ⟨"Family", 3⟩ :=
  ⟨by decide, by decide, by decide⟩

/-- C3 (amended): during backfill the chat row is upserted once per
conversation — not once per message — with the timestamp of the FIRST
delivered message (`messages[0]`); the per-message loop never touches the
chats table, so after processing, `last_message_time` equals the first
delivered message's timestamp. -/
theorem history_sync_chat_time_is_first (env : SyncEnv) (db : DB)
    (conversation : Conversation) (chatJID : String) (jid : JID) (wmi : WebMessageInfo)
    (hid : conversation.id = some chatJID)
    (hjid : env.parseJID chatJID = some jid)
    (hfirst : conversation.messages.head? = some (some wmi))
    (hts : wmi.messageTimestamp ≠ 0) :
    lookupRow (processConversation env db conversation).1.chats chatJID =
      some ⟨getChatName db env.dir jid chatJID (some conversation.meta) "",
        wmi.messageTimestamp⟩ := by
  unfold processConversation
  rw [hid]
  dsimp only
  rw [hjid]
  dsimp only
  cases hm : conversation.messages with
  | nil => rw [hm] at hfirst; cases hfirst
  | cons latest rest =>
    rw [hm] at hfirst
    simp only [List.head?_cons, Option.some.injEq] at hfirst
    subst hfirst
    dsimp only
    rw [if_neg hts, syncFold_chats]
    unfold storeChat
    dsimp only
    rw [lookupRow_upsertRow, if_pos rfl]

/-- C3 witness: the amended claim at the concrete three-message conversation,
first timestamp 1. -/
theorem history_sync_chat_time_is_first_witness :
    lookupRow (processConversation envC3 dbEmpty convC3).1.chats "123@g.us" =
      some ⟨getChatName dbEmpty envC3.dir ⟨"123", "g.us"⟩ "123@g.us"
        (some convC3.meta) "", 1⟩ :=
  history_sync_chat_time_is_first envC3 dbEmpty convC3 "123@g.us" ⟨"123", "g.us"⟩
    ⟨some { emptyPayload with conversation := "a" }, some ⟨some false, none, some "m1"⟩, 1⟩
    (by decide) (by decide) (by decide) (by decide)

/-- C10: a conversation whose first delivered entry is nil (the entry or its
`WebMessageInfo` pointer) or whose first message carries timestamp 0 is
skipped whole: the store is returned unchanged — no chat row, no message
rows, later well-formed messages included — and it contributes 0 to the sync
count. -/
theorem history_sync_skips_bad_first (env : SyncEnv) (db : DB)
    (conversation : Conversation)
    (h : conversation.messages.head? = some none ∨
      ∃ wmi, conversation.messages.head? = some (some wmi) ∧ wmi.messageTimestamp = 0) :
    processConversation env db conversation = (db, 0) := by
  unfold processConversation
  cases hid : conversation.id with
  | none => rfl
  | some chatJID =>
    dsimp only
    cases hj : env.parseJID chatJID with
    | none => rfl
    | some jid =>
      dsimp only
      cases hm : conversation.messages with
      | nil => rfl
      | cons latest rest =>
        rw [hm] at h
        rcases h with h | ⟨wmi, h, hts⟩
        · simp only [List.head?_cons, Option.some.injEq] at h
          subst h
          rfl
        · simp only [List.head?_cons, Option.some.injEq] at h
          subst h
          dsimp only
          rw [if_pos hts]

/-- C10 witness: the conversation whose first entry is nil though its second
message is well formed writes nothing and counts nothing. -/
theorem history_sync_skips_bad_first_witness :
    processConversation envC3 dbEmpty convSkip = (dbEmpty, 0) :=
  history_sync_skips_bad_first envC3 dbEmpty convSkip (Or.inl (by decide))

/-- C9: once a chat row holds a non-empty name, no reachable sequence of
pipeline events — live messages and history-sync batches, under any
collaborator responses and store-exec failures — ever overwrites it with the
empty string: the row persists and its name stays non-empty, because every
chat upsert writes the name `getChatName` resolved against the same store,
and a stored non-empty name short-circuits that resolution. -/
theorem chat_name_never_emptied (events : List PipelineEvent) (w : World)
    (jid : String) (row : ChatRow)
    (h : lookupRow w.db.chats jid = some row) (hne : row.name ≠ "") :
    ∃ row', lookupRow (runPipeline w events).db.chats jid = some row' ∧
      row'.name ≠ "" :=
  hasName_runPipeline events w jid ⟨row, h, hne⟩

/-- C9 witness: a stored name "Alice" survives a live event whose directory
knows nothing and whose fallbacks would otherwise apply. -/
theorem chat_name_never_emptied_witness :
    ∃ row', lookupRow (runPipeline wNamed
        [PipelineEvent.live envLiveOk liveText]).db.chats "123@s.whatsapp.net" =
      some row' ∧ row'.name ≠ "" :=
  chat_name_never_emptied [PipelineEvent.live envLiveOk liveText] wNamed
    "123@s.whatsapp.net" ⟨"Alice", 1⟩ (by decide) (by decide)

end WhatsApp
